import Mathlib

/-!
Verification of the restaurant query/filter resolution engine
(`backend/src/controllers/restaurantController.ts`, file `part_009` of the
repository snapshot): the attribute-search path (`getAllRestaurants`), the
proximity-search path (`getRestaurantsNearLocation`), the compilation of raw
query-string parameters into MongoDB filters, and the in-process "open now"
post-filter.

The embedding is shallow:

* JS numbers are modelled as exact rationals `Q` (an integer numerator and a
  positive natural denominator, with kernel-computable arithmetic; `Q.val`
  interprets them in `ℚ` for symbolic reasoning).  A JS number that may be
  `NaN` (or `undefined` flowing into arithmetic) is an `Option Q`, `none`
  being NaN; every JS comparison involving NaN is false.
* `parseInt(·, 10)`, `parseFloat` and `Number(·)` are modelled for the
  signed/unsigned decimal shapes that occur in query strings and
  opening-hours strings (no exponent/hex/`Infinity` forms, which never
  occur in this data).
* String processing (`split`, `trim`) is modelled structurally on the
  character list of the string, with JS `split` semantics.
* The store (`Restaurant.find`, `countDocuments`, `aggregate`) is a pure
  list together with an explicit failure mode (`Db.failing`), since the
  controllers' error behaviour is part of what is verified.  `$regex`
  filters (always used with `$options: 'i'` on a user-supplied pattern) are
  modelled as case-insensitive substring containment, and `$text` as
  case-insensitive term containment over the indexed fields; no verified
  statement depends on either predicate's fine structure.  Mongo's sort is
  modelled as a stable insertion sort on the requested numeric field; the
  text-score sort priority is not modelled, and no verified statement
  depends on result order.
-/

namespace RestaurantFinder

/-! ## Exact, kernel-computable rationals modelling JS numbers -/

/-- An exact rational: `num / den` with a positive denominator.  This is the
model of a (non-NaN) JS number. -/
structure Q where
  num : ℤ
  den : ℕ+
  deriving DecidableEq

namespace Q

/-- Embed an integer. -/
def ofInt (n : ℤ) : Q := ⟨n, 1⟩

instance (n : ℕ) : OfNat Q n := ⟨ofInt n⟩

/-- The value of a `Q` as a mathematical rational (for specification and
reasoning only; the engine itself computes on `Q`). -/
def val (x : Q) : ℚ := (x.num : ℚ) / ((x.den : ℕ) : ℚ)

/-- JS `+`. -/
def add (x y : Q) : Q := ⟨x.num * (y.den : ℕ) + y.num * (x.den : ℕ), x.den * y.den⟩

/-- JS `-`. -/
def sub (x y : Q) : Q := ⟨x.num * (y.den : ℕ) - y.num * (x.den : ℕ), x.den * y.den⟩

/-- JS `*`. -/
def mul (x y : Q) : Q := ⟨x.num * y.num, x.den * y.den⟩

/-- JS `/` by a positive natural constant (the only division the engine
performs is `$divide: [dist, 1000]`). -/
def divN (x : Q) (k : ℕ+) : Q := ⟨x.num, x.den * k⟩

/-- JS `<=` on non-NaN numbers. -/
def ble (x y : Q) : Bool := decide (x.num * ((y.den : ℕ) : ℤ) ≤ y.num * ((x.den : ℕ) : ℤ))

/-- JS `<` on non-NaN numbers. -/
def blt (x y : Q) : Bool := decide (x.num * ((y.den : ℕ) : ℤ) < y.num * ((x.den : ℕ) : ℤ))

/-- JS `==` on non-NaN numbers (numeric equality, not representation
equality). -/
def beq (x y : Q) : Bool := decide (x.num * ((y.den : ℕ) : ℤ) = y.num * ((x.den : ℕ) : ℤ))

/-- Floor of the value. -/
def floor (x : Q) : ℤ := x.num.fdiv ((x.den : ℕ) : ℤ)

/-- Ceiling of the value. -/
def ceil (x : Q) : ℤ := -((-x.num).fdiv ((x.den : ℕ) : ℤ))

/-- Truncation toward zero (JS `ToIntegerOrInfinity` on a finite number). -/
def trunc (x : Q) : ℤ := if 0 ≤ x.num then x.floor else x.ceil

theorem den_pos_q (x : Q) : (0 : ℚ) < ((x.den : ℕ) : ℚ) := by
  exact_mod_cast x.den.pos

theorem ble_iff (x y : Q) : x.ble y = true ↔ x.val ≤ y.val := by
  unfold ble val
  rw [div_le_div_iff₀ (den_pos_q x) (den_pos_q y), decide_eq_true_eq]
  constructor <;> intro h <;> exact_mod_cast h

theorem blt_iff (x y : Q) : x.blt y = true ↔ x.val < y.val := by
  unfold blt val
  rw [div_lt_div_iff₀ (den_pos_q x) (den_pos_q y), decide_eq_true_eq]
  constructor <;> intro h <;> exact_mod_cast h

theorem beq_iff (x y : Q) : x.beq y = true ↔ x.val = y.val := by
  unfold beq val
  rw [div_eq_div_iff (ne_of_gt (den_pos_q x)) (ne_of_gt (den_pos_q y)), decide_eq_true_eq]
  constructor <;> intro h <;> exact_mod_cast h

theorem val_add (x y : Q) : (x.add y).val = x.val + y.val := by
  unfold add val
  push_cast
  rw [div_add_div _ _ (ne_of_gt (den_pos_q x)) (ne_of_gt (den_pos_q y))]
  ring_nf

theorem val_divN (x : Q) (k : ℕ+) : (x.divN k).val = x.val / ((k : ℕ) : ℚ) := by
  unfold divN val
  push_cast
  rw [div_div]

end Q

/-! ## JS string and number primitives -/

/-- JS `s.split(sep)` on character lists (single-character separator; the
engine only ever splits on `'-'`, `':'`, `','`). -/
def splitOnChar (sep : Char) : List Char → List (List Char)
  | [] => [[]]
  | c :: cs =>
      let r := splitOnChar sep cs
      if c = sep then [] :: r
      else
        match r with
        | h :: t => (c :: h) :: t
        | [] => [[c]]

/-- JS `trim()` on a character list. -/
def charTrim (l : List Char) : List Char :=
  ((l.dropWhile Char.isWhitespace).reverse.dropWhile Char.isWhitespace).reverse

/-- Decimal value of a digit list. -/
def charsToNat (l : List Char) : ℕ :=
  l.foldl (fun a c => 10 * a + (c.toNat - 48)) 0

/-- `10 ^ k` as a positive natural. -/
def pow10 (k : ℕ) : ℕ+ := ⟨10 ^ k, by positivity⟩

/-- JS `Number(s)` on a token, for the decimal shapes that occur in
opening-hours strings: whitespace is trimmed, the empty string is `0`,
otherwise an unsigned decimal numeral with at most one point; anything else
is NaN (`none`). -/
def jsNumber (token : List Char) : Option Q :=
  let t := charTrim token
  if t = [] then some 0
  else
    match splitOnChar '.' t with
    | [a] =>
        if a.all Char.isDigit then some (Q.ofInt (charsToNat a)) else none
    | [a, b] =>
        if a.all Char.isDigit ∧ b.all Char.isDigit then
          some ⟨(charsToNat a * 10 ^ b.length + charsToNat b : ℕ), pow10 b.length⟩
        else none
    | _ => none

/-- Unsigned core of JS `parseFloat`: longest prefix `digits [ "." digits ]`;
NaN when that prefix is empty. -/
def parseFloatCore (cs : List Char) : Option Q :=
  let ip := cs.takeWhile Char.isDigit
  match cs.drop ip.length with
  | '.' :: r =>
      let fp := r.takeWhile Char.isDigit
      if ip = [] ∧ fp = [] then none
      else some ⟨(charsToNat ip * 10 ^ fp.length + charsToNat fp : ℕ), pow10 fp.length⟩
  | _ => if ip = [] then none else some (Q.ofInt (charsToNat ip))

/-- JS `parseFloat(s)`: skip leading whitespace, optional sign, longest
decimal prefix; NaN (`none`) when there is none. -/
def parseFloatStr (s : String) : Option Q :=
  match s.toList.dropWhile Char.isWhitespace with
  | '-' :: r => (parseFloatCore r).map fun q => ⟨-q.num, q.den⟩
  | '+' :: r => parseFloatCore r
  | cs => parseFloatCore cs

/-- JS `parseInt(s, 10)`: skip leading whitespace, optional sign, longest
digit prefix; NaN (`none`) when there is none. -/
def parseIntStr (s : String) : Option Q :=
  let core : List Char → Option Q := fun cs =>
    let ip := cs.takeWhile Char.isDigit
    if ip = [] then none else some (Q.ofInt (charsToNat ip))
  match s.toList.dropWhile Char.isWhitespace with
  | '-' :: r => (core r).map fun q => ⟨-q.num, q.den⟩
  | '+' :: r => core r
  | cs => core cs

/-- `parseFloat` applied to a possibly-absent query parameter:
`parseFloat(undefined)` is NaN. -/
def jsParseFloat : Option String → Option Q
  | none => none
  | some s => parseFloatStr s

/-- `parseInt(·, 10)` applied to a possibly-absent query parameter:
`parseInt(undefined, 10)` is NaN. -/
def jsParseInt : Option String → Option Q
  | none => none
  | some s => parseIntStr s

/-- JS truthiness of an optional string: `undefined` and `""` are falsy. -/
def jsFalsy : Option String → Bool
  | none => true
  | some s => s = ""

/-- JS `<=` on numbers that may be NaN: any comparison with NaN is false. -/
def jsLe : Option Q → Option Q → Bool
  | some a, some b => a.ble b
  | _, _ => false

/-- NaN-propagating subtraction. -/
def nSub : Option Q → Option Q → Option Q
  | some a, some b => some (a.sub b)
  | _, _ => none

/-- NaN-propagating multiplication. -/
def nMul : Option Q → Option Q → Option Q
  | some a, some b => some (a.mul b)
  | _, _ => none

/-- NaN-propagating addition. -/
def nAdd : Option Q → Option Q → Option Q
  | some a, some b => some (a.add b)
  | _, _ => none

/-- JS `ToIntegerOrInfinity` on a possibly-NaN number: NaN becomes `0`,
otherwise truncation toward zero. -/
def jsToInt : Option Q → ℤ
  | none => 0
  | some q => q.trunc

/-- One clamped index of JS `Array.prototype.slice`: negative indices count
from the end, and everything is clamped to `[0, len]`. -/
def jsSliceIdx (len : ℕ) (x : ℤ) : ℕ :=
  if x < 0 then ((len : ℤ) + x).toNat else min x.toNat len

/-- JS `l.slice(start, stop)` (used as `restaurants.slice(skip, skip + limit)`). -/
def jsSlice {α : Type} (l : List α) (start stop : Option Q) : List α :=
  (l.take (jsSliceIdx l.length (jsToInt stop))).drop (jsSliceIdx l.length (jsToInt start))

/-- `req.query.x || dflt`: the default replaces an absent or empty value. -/
def orDefault (s : Option String) (dflt : String) : String :=
  match s with
  | none => dflt
  | some s => if s = "" then dflt else s

/-- `Option.all`-style helper: a filter that is absent always passes. -/
def oAll {α : Type} (p : α → Bool) : Option α → Bool
  | none => true
  | some a => p a

/-- Case-insensitive containment: the model of `$regex` with `$options: 'i'`
for the metacharacter-free patterns this API receives. -/
def containsCI (pat s : String) : Bool :=
  decide (pat.toList.map Char.toLower <:+: s.toList.map Char.toLower)

/-! ## Data model (`backend/src/models/Restaurant.ts`) -/

/-- `openingHours` subdocument: one optional string per weekday plus the
free-text `displayedHours` summary. -/
structure OpeningHours where
  displayedHours : Option String := none
  sun : Option String := none
  mon : Option String := none
  tue : Option String := none
  wed : Option String := none
  thu : Option String := none
  fri : Option String := none
  sat : Option String := none
  deriving DecidableEq

/-- A restaurant document.  `location` is the GeoJSON coordinate pair
`[longitude, latitude]`. -/
structure Restaurant where
  grabId : String := ""
  name : String := ""
  address : String := ""
  area : String := ""
  cuisines : List String := []
  location : Q × Q := (0, 0)
  priceLevel : Q := 0
  rating : Q := 0
  reviewCount : Q := 0
  isOpen : Bool := false
  openingHours : OpeningHours := {}
  distanceInKm : Q := 0
  estimatedDeliveryTime : Q := 0
  deriving DecidableEq

/-! ## Opening-hours evaluation (the `openNow` post-filter body,
`getAllRestaurants`, part_009 lines 382–424) -/

/-- `const daysOfWeek = ['sun', 'mon', 'tue', 'wed', 'thu', 'fri', 'sat']`;
indexed by `Date.getDay()`, whose range is 0 = Sunday .. 6 = Saturday. -/
def daysOfWeek : List String := ["sun", "mon", "tue", "wed", "thu", "fri", "sat"]

/-- The ambient clock reading the controller takes (`new Date()` reduced to
the fields it uses: `getDay()`, `getHours()`, `getMinutes()`). -/
structure Instant where
  day : Fin 7
  hour : ℕ
  minute : ℕ
  deriving DecidableEq

/-- `restaurant.openingHours[currentDay]`: field lookup by day name. -/
def dayField (oh : OpeningHours) : String → Option String
  | "sun" => oh.sun
  | "mon" => oh.mon
  | "tue" => oh.tue
  | "wed" => oh.wed
  | "thu" => oh.thu
  | "fri" => oh.fri
  | "sat" => oh.sat
  | _ => none

/-- `openTime.split(':').map(Number)` destructured as `[h, m]`, then
`h * 60 + m`: NaN (`none`) when either component is NaN or when the minute
component is `undefined` (fewer than two `':'`-separated parts). -/
def minutesOfToken (t : List Char) : Option Q :=
  match (splitOnChar ':' t).map jsNumber with
  | some hv :: some mv :: _ => some ((hv.mul 60).add mv)
  | _ => none

/-- The per-restaurant body of the `openNow` post-filter (part_009 lines
398–424) for one day entry and the current minutes-since-midnight: absent or
`"Closed"` (or empty) hours are closed; otherwise the entry is split on
`'-'`; a missing close token is the caught `TypeError` (`false`); otherwise
open iff `openMinutes <= currentMinutes && currentMinutes <= closeMinutes`,
with NaN comparisons false. -/
def evalOpenEntry (hours : Option String) (currentMinutes : Q) : Bool :=
  match hours with
  | none => false
  | some h =>
    if h = "" then false
    else if h = "Closed" then false
    else
      match splitOnChar '-' h.toList with
      | openT :: closeT :: _ =>
          jsLe (minutesOfToken openT) (some currentMinutes) &&
          jsLe (some currentMinutes) (minutesOfToken closeT)
      | _ => false

/-- The open/close interval the post-filter's parse step extracts from a day
entry; `none` when the parse yields NaN or throws (which `evalOpenEntry`
turns into "closed"). -/
def parsedInterval (hours : Option String) : Option (Q × Q) :=
  match hours with
  | none => none
  | some h =>
    if h = "" then none
    else if h = "Closed" then none
    else
      match splitOnChar '-' h.toList with
      | openT :: closeT :: _ =>
          match minutesOfToken openT, minutesOfToken closeT with
          | some o, some c => some (o, c)
          | _, _ => none
      | _ => none

/-- The full open-now decision for one restaurant at one instant:
`currentDay = daysOfWeek[now.getDay()]`, `currentMinutes = h*60 + m`. -/
def isOpenAt (oh : OpeningHours) (now : Instant) : Bool :=
  evalOpenEntry (dayField oh (daysOfWeek.getD now.day.val ""))
    (Q.ofInt (now.hour * 60 + now.minute : ℕ))

/-- Specification-side weekday lookup with the explicit Sunday=0..Saturday=6
numeric mapping. -/
def weekdayEntry (oh : OpeningHours) (d : Fin 7) : Option String :=
  [oh.sun, oh.mon, oh.tue, oh.wed, oh.thu, oh.fri, oh.sat].getD d.val none

/-- Decidable test for the literal `"HH:MM-HH:MM"` shape (two-digit fields,
one interval). -/
def exactHHMMShape (s : String) : Bool :=
  match s.toList with
  | [a, b, ':', c, d, '-', e, f, ':', g, h] =>
      a.isDigit && b.isDigit && c.isDigit && d.isDigit &&
      e.isDigit && f.isDigit && g.isDigit && h.isDigit
  | _ => false

theorem embedding_sanity_1 : parseFloatStr "4.5" = some ⟨45, pow10 1⟩ := by decide
theorem embedding_sanity_2 : parseFloatStr "invalid" = none := by decide
theorem embedding_sanity_3 : parseIntStr "12" = some (Q.ofInt 12) := by decide
theorem embedding_sanity_4 : jsNumber "00 18".toList = none := by decide
theorem embedding_sanity_5 : jsNumber " 11".toList = some (Q.ofInt 11) := by decide
theorem embedding_sanity_6 : jsNumber "".toList = some 0 := by decide
theorem embedding_sanity_7 : containsCI "PIZZA" "Best pizza place" = true := by decide
theorem embedding_sanity_8 : (Q.ble ⟨45, pow10 1⟩ 5 && Q.ble 4 ⟨45, pow10 1⟩) = true := by decide
theorem embedding_sanity_9 : evalOpenEntry (some "11:00-23:00") (Q.ofInt 720) = true := by decide
theorem embedding_sanity_10 : evalOpenEntry (some "11:00-23:00") (Q.ofInt 660) = true := by decide
theorem embedding_sanity_11 : evalOpenEntry (some "11:00-23:00") (Q.ofInt 659) = false := by decide
theorem embedding_sanity_12 : evalOpenEntry (some "Closed") (Q.ofInt 720) = false := by decide
theorem embedding_sanity_13 : evalOpenEntry (some "11:00-15:00 18:00-22:00") (Q.ofInt 720) = false := by decide
theorem embedding_sanity_14 : evalOpenEntry (some ":0-24:0") (Q.ofInt 720) = true := by decide
theorem embedding_sanity_15 : exactHHMMShape ":0-24:0" = false := by decide
theorem embedding_sanity_16 : exactHHMMShape "11:00-23:00" = true := by decide
theorem embedding_sanity_17 : parsedInterval (some "22:00-06:00") = some (Q.ofInt 1320, Q.ofInt 360) := by decide

/-! ## Filter compilation, attribute path (`getAllRestaurants`,
part_009 lines 254–365)

The controller builds one `filter` object by successive assignments to
distinct keys; assignments to distinct keys commute, so each key is compiled
by its own function below, in the source's assignment order for that key.
The crucial detail is the spread `{ ...filter.rating, $gte: minRating }`:
spreading a previously assigned *scalar* (or `undefined`) contributes no
properties, so a range bound silently discards an exact equality filter. -/

/-- One MongoDB numeric condition: either a bare scalar (equality) or a
`$gte`/`$lte` range object. -/
inductive MongoNum where
  | scalar (x : Q)
  | range (lo hi : Option Q)
  deriving DecidableEq

/-- `{ ...prev, $gte: m }`: only a previous range object survives the
spread; a scalar or `undefined` spreads to nothing. -/
def withGte (prev : Option MongoNum) (m : Q) : MongoNum :=
  match prev with
  | some (MongoNum.range _ hi) => MongoNum.range (some m) hi
  | _ => MongoNum.range (some m) none

/-- `{ ...prev, $lte: m }`. -/
def withLte (prev : Option MongoNum) (m : Q) : MongoNum :=
  match prev with
  | some (MongoNum.range lo _) => MongoNum.range lo (some m)
  | _ => MongoNum.range none (some m)

/-- Satisfaction of a `MongoNum` condition by a document value. -/
def MongoNum.holds : MongoNum → Q → Bool
  | scalar x, v => v.beq x
  | range lo hi, v => oAll (fun m => m.ble v) lo && oAll (fun m => v.ble m) hi

/-- Raw query-string parameters of the attribute path (each `none` when the
parameter is absent). -/
structure RawQuery where
  page : Option String := none
  limit : Option String := none
  sort : Option String := none
  name : Option String := none
  address : Option String := none
  q : Option String := none
  area : Option String := none
  cuisines : Option String := none
  priceLevel : Option String := none
  rating : Option String := none
  minRating : Option String := none
  maxRating : Option String := none
  minPrice : Option String := none
  maxPrice : Option String := none
  minDistance : Option String := none
  maxDistance : Option String := none
  minReviews : Option String := none
  deliveryUnder30 : Option String := none
  isOpen : Option String := none
  openNow : Option String := none
  deriving DecidableEq

/-- The compiled MongoDB `filter` object (part_009 line 254 onward). -/
structure FilterSpec where
  name : Option String := none
  address : Option String := none
  text : Option String := none
  area : Option String := none
  cuisines : Option (List String) := none
  priceLevel : Option MongoNum := none
  rating : Option MongoNum := none
  distanceInKm : Option MongoNum := none
  reviewCount : Option MongoNum := none
  estimatedDeliveryTime : Option MongoNum := none
  isOpen : Option Bool := none
  deriving DecidableEq

/-- `if (s && s.trim() !== '')`: a present, non-blank string. -/
def presentNonBlank (s : Option String) : Option String :=
  match s with
  | none => none
  | some s => if charTrim s.toList = [] then none else some s

/-- `filter.rating`: exact `rating` first (line 304), then `minRating`
(line 311) and `maxRating` (line 317), each spreading the previous value. -/
def compileRating (rating minRating maxRating : Option String) : Option MongoNum :=
  let f := (jsParseFloat rating).map MongoNum.scalar
  let f := match jsParseFloat minRating with
    | some v => some (withGte f v)
    | none => f
  match jsParseFloat maxRating with
  | some v => some (withLte f v)
  | none => f

/-- `filter.priceLevel`: exact `priceLevel` (line 298), then `minPrice`
(line 323) and `maxPrice` (line 329). -/
def compilePriceLevel (priceLevel minPrice maxPrice : Option String) : Option MongoNum :=
  let f := (jsParseInt priceLevel).map MongoNum.scalar
  let f := match jsParseInt minPrice with
    | some v => some (withGte f v)
    | none => f
  match jsParseInt maxPrice with
  | some v => some (withLte f v)
  | none => f

/-- `filter.distanceInKm`: `minDistance` (line 335) then `maxDistance`
(line 341), both `parseFloat`. -/
def compileDistance (minDistance maxDistance : Option String) : Option MongoNum :=
  let f : Option MongoNum := none
  let f := match jsParseFloat minDistance with
    | some v => some (withGte f v)
    | none => f
  match jsParseFloat maxDistance with
  | some v => some (withLte f v)
  | none => f

/-- `compile(rawParams)` for the attribute path: every numeric parse failure
drops that single filter; text filters require a non-blank value. -/
def buildFilter (rq : RawQuery) : FilterSpec :=
  { name := presentNonBlank rq.name
    address := presentNonBlank rq.address
    text := presentNonBlank rq.q
    area := presentNonBlank rq.area
    cuisines := (presentNonBlank rq.cuisines).map fun cs =>
      (splitOnChar ',' cs.toList).map fun c => String.mk (charTrim c)
    priceLevel := compilePriceLevel rq.priceLevel rq.minPrice rq.maxPrice
    rating := compileRating rq.rating rq.minRating rq.maxRating
    distanceInKm := compileDistance rq.minDistance rq.maxDistance
    reviewCount := (jsParseInt rq.minReviews).map fun v => MongoNum.range (some v) none
    estimatedDeliveryTime :=
      if rq.deliveryUnder30 = some "true" then some (MongoNum.range none (some 30)) else none
    isOpen := rq.isOpen.map fun s => s = "true" }

/-- Term containment over the text-indexed fields: the model of the
`$text: { $search: q }` relevance filter (name, cuisines, address, area). -/
def textMatches (query : String) (r : Restaurant) : Bool :=
  ((splitOnChar ' ' query.toList).filter (· ≠ [])).any fun term =>
    let t := String.mk term
    containsCI t r.name || r.cuisines.any (containsCI t) ||
    containsCI t r.address || containsCI t r.area

/-- Whether a document satisfies the compiled attribute-path filter: the
store-level predicate of `Restaurant.find(filter)` / `countDocuments(filter)`. -/
def matchesFilter (f : FilterSpec) (r : Restaurant) : Bool :=
  oAll (fun p => containsCI p r.name) f.name &&
  oAll (fun p => containsCI p r.address) f.address &&
  oAll (fun p => textMatches p r) f.text &&
  oAll (fun a => r.area = a) f.area &&
  oAll (fun cs => cs.any fun c => r.cuisines.contains c) f.cuisines &&
  oAll (fun p => p.holds r.priceLevel) f.priceLevel &&
  oAll (fun p => p.holds r.rating) f.rating &&
  oAll (fun p => p.holds r.distanceInKm) f.distanceInKm &&
  oAll (fun p => p.holds r.reviewCount) f.reviewCount &&
  oAll (fun p => p.holds r.estimatedDeliveryTime) f.estimatedDeliveryTime &&
  oAll (fun b => r.isOpen = b) f.isOpen

/-! ## Sorting and the store -/

/-- Stable insertion of `a` before the first element strictly greater. -/
def insertSorted {α : Type} (lt : α → α → Bool) (a : α) : List α → List α
  | [] => [a]
  | b :: l => if lt a b then a :: b :: l else b :: insertSorted lt a l

/-- Stable insertion sort. -/
def sortByLt {α : Type} (lt : α → α → Bool) : List α → List α
  | [] => []
  | a :: l => insertSorted lt a (sortByLt lt l)

/-- Numeric sort key by document field name (the sortable numeric fields of
the schema; other keys sort as a constant — no verified statement depends on
result order). -/
def sortField (r : Restaurant) : String → Q
  | "rating" => r.rating
  | "reviewCount" => r.reviewCount
  | "priceLevel" => r.priceLevel
  | "estimatedDeliveryTime" => r.estimatedDeliveryTime
  | "distanceInKm" => r.distanceInKm
  | _ => 0

/-- Mongoose `.sort(sortStr)`: a leading `'-'` sorts the named field
descending, otherwise ascending.  (The `$text` score priority of part_009
line 393 is not modelled; no verified statement depends on order.) -/
def applySort (sortStr : String) (l : List Restaurant) : List Restaurant :=
  match sortStr.toList with
  | '-' :: rest => sortByLt (fun a b => Q.blt (sortField b (String.mk rest)) (sortField a (String.mk rest))) l
  | _ => sortByLt (fun a b => Q.blt (sortField a sortStr) (sortField b sortStr)) l

/-- The backing store: either healthy (a pure document list) or failing
(every query rejects — the error path of the controllers). -/
inductive Db where
  | healthy (store : List Restaurant)
  | failing (msg : String)
  deriving DecidableEq

/-- `Restaurant.find(filter).sort(sortStr)`: all matches, sorted. -/
def dbFind (db : Db) (f : FilterSpec) (sortStr : String) : Except String (List Restaurant) :=
  match db with
  | .healthy store => .ok (applySort sortStr (store.filter (matchesFilter f)))
  | .failing m => .error m

/-- `Restaurant.countDocuments(filter)`. -/
def dbCount (db : Db) (f : FilterSpec) : Except String ℕ :=
  match db with
  | .healthy store => .ok (store.filter (matchesFilter f)).length
  | .failing m => .error m

/-! ## Pagination and the response envelope -/

/-- `parseInt(req.query.page as string || '1', 10)`. -/
def rqPage (rq : RawQuery) : Option Q := parseIntStr (orDefault rq.page "1")

/-- `parseInt(req.query.limit as string || '20', 10)`. -/
def rqLimit (rq : RawQuery) : Option Q := parseIntStr (orDefault rq.limit "20")

/-- `skip = (page - 1) * limit` (NaN-propagating). -/
def rqSkip (rq : RawQuery) : Option Q := nMul (nSub (rqPage rq) (some 1)) (rqLimit rq)

/-- `(req.query.sort as string) || '-rating'`. -/
def sortOf (rq : RawQuery) : String := orDefault rq.sort "-rating"

/-- `Math.ceil(total / limit)`.  A NaN limit gives NaN; a zero limit
(JS `Infinity`) is outside the model and collapsed to `none` — no verified
statement touches it. -/
def jsPages (total : ℕ) : Option Q → Option Q
  | none => none
  | some l =>
      if l.num = 0 then none
      else
        let n : ℤ := (total : ℤ) * ((l.den : ℕ) : ℤ)
        let n2 := if l.num < 0 then -n else n
        let d2 := if l.num < 0 then -l.num else l.num
        some (Q.ofInt (-((-n2).fdiv d2)))

/-- The `pagination` object of the response envelope. -/
structure Pagination where
  total : ℕ
  page : Option Q
  pages : Option Q
  limit : Option Q
  deriving DecidableEq

/-- The attribute-path success envelope
`{ success, count, pagination, data }` (part_009 lines 447–452). -/
structure Envelope where
  success : Bool
  count : ℕ
  pagination : Pagination
  data : List Restaurant
  deriving DecidableEq

/-- Outcome of the attribute-path handler: a 200 envelope, or an error
forwarded to `next(error)`. -/
inductive AttrResponse where
  | ok (env : Envelope)
  | errorOut (msg : String)
  deriving DecidableEq

/-- HTTP status produced for an `AttrResponse`: the error-handling
middleware (part_009 lines 14–26) turns an error without a `statusCode`
— which is what storage errors are — into a 500 `"Server Error"`. -/
def attrStatus : AttrResponse → ℕ
  | .ok _ => 200
  | .errorOut _ => 500

/-! ## The attribute path (`getAllRestaurants`, part_009 lines 238–457) -/

/-- `GET /api/restaurants`.  With `openNow=true`: fetch up to 10000 sorted
matches of the non-open-now filter, post-filter them in process with the
opening-hours evaluation at `now`, take `total` from the filtered length and
the page as `filtered.slice(skip, skip + limit)`.  Otherwise: push skip and
limit to the store and count with an independent `countDocuments` on the
same filter.  Any store rejection escapes the `try` to `next(error)`. -/
def getAllRestaurants (rq : RawQuery) (db : Db) (now : Instant) : AttrResponse :=
  let page := rqPage rq
  let limit := rqLimit rq
  let skip := rqSkip rq
  let filter := buildFilter rq
  if rq.openNow = some "true" then
    match dbFind db filter (sortOf rq) with
    | .error m => .errorOut m
    | .ok found =>
        let fetched := found.take 10000
        let filtered := fetched.filter fun r => isOpenAt r.openingHours now
        let total := filtered.length
        let data := jsSlice filtered skip (nAdd skip limit)
        .ok { success := true, count := data.length,
              pagination := { total := total, page := page,
                              pages := jsPages total limit, limit := limit }
              data := data }
  else
    match dbFind db filter (sortOf rq) with
    | .error m => .errorOut m
    | .ok found =>
        -- `.skip(skip).limit(limit)` executes store-side; negative or NaN
        -- values (rejected by Mongo) are clamped here and exercised by no
        -- verified statement.
        let data := (found.drop (jsToInt skip).toNat).take (jsToInt limit).toNat
        match dbCount db filter with
        | .error m => .errorOut m
        | .ok total =>
            .ok { success := true, count := data.length,
                  pagination := { total := total, page := page,
                                  pages := jsPages total limit, limit := limit }
                  data := data }

/-! ## The proximity path (`getRestaurantsNearLocation`,
part_009 lines 550–679) -/

/-- Raw query-string parameters of the proximity path. -/
structure NearRawQuery where
  longitude : Option String := none
  latitude : Option String := none
  maxDistance : Option String := none
  page : Option String := none
  limit : Option String := none
  openNow : Option String := none
  maxDeliveryTime : Option String := none
  minRating : Option String := none
  minReviews : Option String := none
  deriving DecidableEq

/-- The `matchFilters` object (part_009 lines 582–608).  Note that
`openNow=true` is compiled into `matchFilters.isOpen = true` — the stored
scrape-time snapshot flag, not the opening-hours evaluation. -/
structure NearFilters where
  isOpen : Option Bool := none
  estimatedDeliveryTime : Option MongoNum := none
  rating : Option MongoNum := none
  reviewCount : Option MongoNum := none
  deriving DecidableEq

/-- Build `matchFilters` from the raw parameters. -/
def buildNearFilters (rq : NearRawQuery) : NearFilters :=
  { isOpen := if rq.openNow = some "true" then some true else none
    estimatedDeliveryTime := (jsParseInt rq.maxDeliveryTime).map fun v =>
      MongoNum.range none (some v)
    rating := (jsParseFloat rq.minRating).map fun v => MongoNum.range (some v) none
    reviewCount := (jsParseInt rq.minReviews).map fun v => MongoNum.range (some v) none }

/-- Whether a document satisfies `matchFilters` (the `query` of the
`$geoNear` stage). -/
def matchesNearFilters (f : NearFilters) (r : Restaurant) : Bool :=
  oAll (fun b => r.isOpen = b) f.isOpen &&
  oAll (fun p => p.holds r.estimatedDeliveryTime) f.estimatedDeliveryTime &&
  oAll (fun p => p.holds r.rating) f.rating &&
  oAll (fun p => p.holds r.reviewCount) f.reviewCount

/-- The `$geoNear` stage: all documents satisfying the `query` predicate and
within `maxDistance` meters of the query point, nearest first, each paired
with its geodesic distance in the `distanceField`.  The geodesic distance
computation itself is abstracted as `geo`. -/
def geoNearStage (geo : Q × Q → Restaurant → Q) (pt : Q × Q) (maxDist : Option Q)
    (f : NearFilters) (store : List Restaurant) : List (Restaurant × Q) :=
  (sortByLt (fun a b => Q.blt (geo pt a) (geo pt b))
      (store.filter fun r => matchesNearFilters f r && jsLe (some (geo pt r)) maxDist)).map
    fun r => (r, geo pt r)

/-- A document as emitted by the results pipeline: the `$geoNear` output
plus the `$addFields` projection `distanceInKm = distanceInMeters / 1000`. -/
structure NearDoc where
  doc : Restaurant
  distanceInMeters : Q
  distanceInKm : Q
  deriving DecidableEq

/-- The proximity-path success envelope (part_009 lines 663–675). -/
structure NearEnvelope where
  success : Bool
  count : ℕ
  pagination : Pagination
  data : List NearDoc
  currentPage : Option Q
  totalPages : Option Q
  deriving DecidableEq

/-- Outcome of the proximity-path handler: a 200 envelope or a 400
validation response. -/
inductive NearResponse where
  | ok (env : NearEnvelope)
  | badRequest (message : String)
  deriving DecidableEq

/-- HTTP status of a proximity-path response. -/
def nearStatus : NearResponse → ℕ
  | .ok _ => 200
  | .badRequest _ => 400

/-- `parseInt(req.query.page ... || '1', 10)` for the proximity path. -/
def nearPage (rq : NearRawQuery) : Option Q := parseIntStr (orDefault rq.page "1")

/-- `parseInt(req.query.limit ... || '20', 10)` for the proximity path. -/
def nearLimit (rq : NearRawQuery) : Option Q := parseIntStr (orDefault rq.limit "20")

/-- `skip = (page - 1) * limit` for the proximity path. -/
def nearSkip (rq : NearRawQuery) : Option Q := nMul (nSub (nearPage rq) (some 1)) (nearLimit rq)

/-- `const { maxDistance = 2000 } = req.query; parseInt(maxDistance, 10)`:
the destructuring default `2000` applies only when the parameter is absent. -/
def nearMaxDistance (rq : NearRawQuery) : Option Q :=
  match rq.maxDistance with
  | none => some 2000
  | some s => parseIntStr s

/-- `GET /api/restaurants/near`.  Missing (falsy) coordinates give a 400
before anything else; unparseable coordinates give a 400; otherwise one
`$geoNear` definition feeds both the `$count` pipeline (producing `total`)
and the results pipeline (`$addFields` distanceInKm, `$skip`, `$limit`).
An aggregation failure is caught locally: the response stays 200 with empty
`data` (and `total` still 0 from its initialiser).  The envelope's `count`
is `total`, not the page length. -/
def getRestaurantsNearLocation (rq : NearRawQuery) (db : Db)
    (geo : Q × Q → Restaurant → Q) : NearResponse :=
  let page := nearPage rq
  let limit := nearLimit rq
  let skip := nearSkip rq
  if jsFalsy rq.longitude || jsFalsy rq.latitude then
    .badRequest "Please provide longitude and latitude"
  else
    match jsParseFloat rq.longitude, jsParseFloat rq.latitude with
    | some lng, some lat =>
        let f := buildNearFilters rq
        match db with
        | .failing _ =>
            -- the `$count` aggregate rejects; `total` keeps its initial 0,
            -- `restaurants` its initial `[]`, and the handler still replies 200
            .ok { success := true, count := 0,
                  pagination := { total := 0, page := page,
                                  pages := jsPages 0 limit, limit := limit }
                  data := [], currentPage := page, totalPages := jsPages 0 limit }
        | .healthy store =>
            let out := geoNearStage geo (lng, lat) (nearMaxDistance rq) f store
            let total := out.length
            let docs := out.map fun p => NearDoc.mk p.1 p.2 (p.2.divN 1000)
            -- `$skip` / `$limit`; negative or NaN values (rejected by Mongo)
            -- are clamped here and exercised by no verified statement.
            let data := (docs.drop (jsToInt skip).toNat).take (jsToInt limit).toNat
            .ok { success := true, count := total,
                  pagination := { total := total, page := page,
                                  pages := jsPages total limit, limit := limit }
                  data := data, currentPage := page, totalPages := jsPages total limit }
    | _, _ => .badRequest "Invalid longitude or latitude"

/-! ## Response projections -/

/-- `pagination.total` of an attribute-path response (0 on the error path). -/
def AttrResponse.totalOf : AttrResponse → ℕ
  | .ok e => e.pagination.total
  | .errorOut _ => 0

/-- `data` of an attribute-path response (empty on the error path). -/
def AttrResponse.dataOf : AttrResponse → List Restaurant
  | .ok e => e.data
  | .errorOut _ => []

/-- Top-level `count` of a proximity-path response (0 on the 400 path). -/
def NearResponse.countOf : NearResponse → ℕ
  | .ok e => e.count
  | .badRequest _ => 0

/-- Length of `data` of a proximity-path response (0 on the 400 path). -/
def NearResponse.dataLen : NearResponse → ℕ
  | .ok e => e.data.length
  | .badRequest _ => 0

/-! ## Helper lemmas -/

theorem Q.val_ofInt (n : ℤ) : (Q.ofInt n).val = (n : ℚ) := by
  simp [Q.ofInt, Q.val]

theorem mem_insertSorted {α : Type} (lt : α → α → Bool) (a x : α) (l : List α) :
    x ∈ insertSorted lt a l ↔ x ∈ l ∨ x = a := by
  induction l with
  | nil => simp [insertSorted]
  | cons b t ih =>
      by_cases hlt : lt a b <;> simp [insertSorted, hlt, ih] <;> tauto

theorem mem_sortByLt {α : Type} (lt : α → α → Bool) (x : α) (l : List α) :
    x ∈ sortByLt lt l ↔ x ∈ l := by
  induction l with
  | nil => simp [sortByLt]
  | cons a t ih => simp [sortByLt, mem_insertSorted, ih]; tauto

theorem mem_applySort (sortStr : String) (x : Restaurant) (l : List Restaurant) :
    x ∈ applySort sortStr l ↔ x ∈ l := by
  unfold applySort
  split <;> exact mem_sortByLt _ _ _

/-- The open-now body in terms of the extracted interval: a failed parse is
"closed", a successful one is the inclusive NaN-free comparison. -/
theorem evalOpenEntry_parsed (hours : Option String) (cur : Q) :
    evalOpenEntry hours cur =
      match parsedInterval hours with
      | some (o, c) => o.ble cur && cur.ble c
      | none => false := by
  unfold evalOpenEntry parsedInterval
  cases hours with
  | none => rfl
  | some h =>
      by_cases h1 : h = ""
      · simp [h1]
      · by_cases h2 : h = "Closed"
        · simp [h1, h2]
        · simp only [h1, h2, if_false]
          cases hs : splitOnChar '-' h.toList with
          | nil => rfl
          | cons a t =>
              cases t with
              | nil => rfl
              | cons b t2 =>
                  cases ho : minutesOfToken a <;> cases hc : minutesOfToken b <;>
                    simp [jsLe, ho, hc]

/-- `isOpenAt` looks the current weekday up through the
`['sun', .., 'sat']` table: it coincides with the direct Sunday=0 ..
Saturday=6 field selection. -/
theorem isOpenAt_weekday (oh : OpeningHours) (now : Instant) :
    isOpenAt oh now =
      evalOpenEntry (weekdayEntry oh now.day) (Q.ofInt (now.hour * 60 + now.minute : ℕ)) := by
  obtain ⟨d, hh, mm⟩ := now
  fin_cases d <;> rfl

/-! ## Claims -/

/-- C5: the open-now evaluation is a pure function of `(openingHours,
instant)`: the weekday is selected with the Sunday=0..Saturday=6 mapping; an
absent day entry or the `"Closed"` marker yields closed; a day entry whose
parse succeeds is open iff `openMinutes ≤ currentMinutes ≤ closeMinutes`
with both boundaries inclusive; and an interval with `close < open`
(overnight wrap) evaluates as always closed. -/
theorem isOpenAt_pure_interval_semantics :
    (∀ oh now, isOpenAt oh now =
        evalOpenEntry (weekdayEntry oh now.day) (Q.ofInt (now.hour * 60 + now.minute : ℕ))) ∧
    (∀ e cur, (e = none ∨ e = some "Closed") → evalOpenEntry e cur = false) ∧
    (∀ e cur o c, parsedInterval e = some (o, c) →
        (evalOpenEntry e cur = true ↔ o.val ≤ cur.val ∧ cur.val ≤ c.val)) ∧
    (∀ e cur o c, parsedInterval e = some (o, c) → c.val < o.val →
        evalOpenEntry e cur = false) := by
  have key : ∀ e cur o c, parsedInterval e = some (o, c) →
      (evalOpenEntry e cur = true ↔ o.val ≤ cur.val ∧ cur.val ≤ c.val) := by
    intro e cur o c hp
    rw [evalOpenEntry_parsed, hp]
    simp only [Bool.and_eq_true, Q.ble_iff]
  refine ⟨isOpenAt_weekday, ?_, key, ?_⟩
  · rintro e cur (rfl | rfl)
    · rfl
    · rfl
  · intro e cur o c hp hco
    cases hb : evalOpenEntry e cur with
    | false => rfl
    | true =>
        obtain ⟨h1, h2⟩ := (key e cur o c hp).mp hb
        exact absurd (le_trans h1 h2) (not_le.mpr hco)

/-- Witness for C5 at concrete inputs: both boundaries of `"11:00-23:00"`
are open, the closed marker is closed, and the overnight interval
`"22:00-06:00"` is closed even inside its evening span. -/
theorem isOpenAt_pure_interval_semantics_witness :
    evalOpenEntry (some "11:00-23:00") (Q.ofInt 660) = true ∧
    evalOpenEntry (some "11:00-23:00") (Q.ofInt 1380) = true ∧
    evalOpenEntry (some "Closed") (Q.ofInt 720) = false ∧
    evalOpenEntry (some "22:00-06:00") (Q.ofInt 1380) = false := by
  refine ⟨?_, ?_, ?_, ?_⟩
  · exact (isOpenAt_pure_interval_semantics.2.2.1 (some "11:00-23:00") (Q.ofInt 660)
      (Q.ofInt 660) (Q.ofInt 1380) (by decide)).mpr
      (by simp only [Q.val_ofInt]; norm_num)
  · exact (isOpenAt_pure_interval_semantics.2.2.1 (some "11:00-23:00") (Q.ofInt 1380)
      (Q.ofInt 660) (Q.ofInt 1380) (by decide)).mpr
      (by simp only [Q.val_ofInt]; norm_num)
  · exact isOpenAt_pure_interval_semantics.2.1 (some "Closed") (Q.ofInt 720) (Or.inr rfl)
  · exact isOpenAt_pure_interval_semantics.2.2.2 (some "22:00-06:00") (Q.ofInt 1380)
      (Q.ofInt 1320) (Q.ofInt 360) (by decide)
      (by simp only [Q.val_ofInt]; norm_num)

/-- C1: with `openNow=true` on the attribute path, the handler fetches a
superset of matches of the non-open-now filter capped at 10000, filters it
in process with the opening-hours evaluation, takes `total` from the
post-filter count, and serves the page as `slice(skip, skip + limit)` of the
filtered sequence — pagination is computed after open-now filtering. -/
theorem attr_openNow_paginates_after_filter (rq : RawQuery) (store : List Restaurant)
    (now : Instant) (hON : rq.openNow = some "true") :
    attrStatus (getAllRestaurants rq (Db.healthy store) now) = 200 ∧
    (getAllRestaurants rq (Db.healthy store) now).totalOf =
      (((applySort (sortOf rq) (store.filter (matchesFilter (buildFilter rq)))).take 10000).filter
        fun r => isOpenAt r.openingHours now).length ∧
    (getAllRestaurants rq (Db.healthy store) now).dataOf =
      jsSlice
        (((applySort (sortOf rq) (store.filter (matchesFilter (buildFilter rq)))).take 10000).filter
          fun r => isOpenAt r.openingHours now)
        (rqSkip rq) (nAdd (rqSkip rq) (rqLimit rq)) ∧
    ∀ r ∈ (applySort (sortOf rq) (store.filter (matchesFilter (buildFilter rq)))).take 10000,
      matchesFilter (buildFilter rq) r = true := by
  unfold getAllRestaurants dbFind
  rw [hON, if_pos rfl]
  refine ⟨rfl, rfl, rfl, ?_⟩
  intro r hr
  exact (List.mem_filter.mp ((mem_applySort _ _ _).mp (List.mem_of_mem_take hr))).2

/-- A request carrying only `openNow=true`. -/
def openNowOnlyQuery : RawQuery := { openNow := some "true" }

/-- Sunday noon. -/
def sundayNoon : Instant := ⟨0, 12, 0⟩

/-- Open on Sundays 11:00–23:00. -/
def rOpenSunday : Restaurant :=
  { name := "Open", openingHours := { sun := some "11:00-23:00" } }

/-- Marked closed on Sundays. -/
def rClosedSunday : Restaurant :=
  { name := "Shut", openingHours := { sun := some "Closed" } }

/-- Witness for C1 at a concrete request, store and instant. -/
theorem attr_openNow_paginates_after_filter_witness :
    attrStatus (getAllRestaurants openNowOnlyQuery
        (Db.healthy [rOpenSunday, rClosedSunday]) sundayNoon) = 200 ∧
    (getAllRestaurants openNowOnlyQuery
        (Db.healthy [rOpenSunday, rClosedSunday]) sundayNoon).totalOf =
      (((applySort (sortOf openNowOnlyQuery)
          ([rOpenSunday, rClosedSunday].filter
            (matchesFilter (buildFilter openNowOnlyQuery)))).take 10000).filter
        fun r => isOpenAt r.openingHours sundayNoon).length ∧
    (getAllRestaurants openNowOnlyQuery
        (Db.healthy [rOpenSunday, rClosedSunday]) sundayNoon).dataOf =
      jsSlice
        (((applySort (sortOf openNowOnlyQuery)
            ([rOpenSunday, rClosedSunday].filter
              (matchesFilter (buildFilter openNowOnlyQuery)))).take 10000).filter
          fun r => isOpenAt r.openingHours sundayNoon)
        (rqSkip openNowOnlyQuery)
        (nAdd (rqSkip openNowOnlyQuery) (rqLimit openNowOnlyQuery)) ∧
    ∀ r ∈ (applySort (sortOf openNowOnlyQuery)
        ([rOpenSunday, rClosedSunday].filter
          (matchesFilter (buildFilter openNowOnlyQuery)))).take 10000,
      matchesFilter (buildFilter openNowOnlyQuery) r = true :=
  attr_openNow_paginates_after_filter openNowOnlyQuery [rOpenSunday, rClosedSunday]
    sundayNoon rfl

/-- A proximity request without `openNow`. -/
def nearPlainQuery : NearRawQuery := { longitude := some "103", latitude := some "1" }

/-- The same proximity request with `openNow=true`. -/
def nearOpenNowQuery : NearRawQuery :=
  { longitude := some "103", latitude := some "1", openNow := some "true" }

/-- A store holding one restaurant whose scrape-time snapshot flag is
`isOpen = false`. -/
def snapshotClosedStore : List Restaurant := [{ name := "Snap", isOpen := false }]

/-- A degenerate geodesic distance (every document at the query point). -/
def geoZero : Q × Q → Restaurant → Q := fun _ _ => 0

/-- Counterexample to C2: on the proximity path, adding `openNow=true` to an
otherwise identical request changes the result — the total drops from 1 to 0
because the record with snapshot `isOpen = false` is filtered out. -/
theorem near_openNow_changes_results :
    (getRestaurantsNearLocation nearOpenNowQuery
        (Db.healthy snapshotClosedStore) geoZero).countOf = 0 ∧
    (getRestaurantsNearLocation nearPlainQuery
        (Db.healthy snapshotClosedStore) geoZero).countOf = 1 ∧
    getRestaurantsNearLocation nearOpenNowQuery (Db.healthy snapshotClosedStore) geoZero ≠
      getRestaurantsNearLocation nearPlainQuery (Db.healthy snapshotClosedStore) geoZero := by
  refine ⟨by decide, by decide, by decide⟩

/-- C2 as amended: on the proximity path the live opening-hours open-now
evaluation is indeed never applied — but `openNow=true` is not inert: it is
compiled into an equality filter on the stored `isOpen` snapshot flag inside
the `$geoNear` query (so results can differ from the same request without
it), and the proximity-path predicate never consults `openingHours`. -/
theorem near_openNow_is_snapshot_filter (rq : NearRawQuery)
    (hON : rq.openNow = some "true") :
    (buildNearFilters rq).isOpen = some true ∧
    ∀ f r oh, matchesNearFilters f { r with openingHours := oh } = matchesNearFilters f r := by
  constructor
  · simp [buildNearFilters, hON]
  · intro f r oh
    rfl

/-- Witness for C2's amended statement at the concrete `openNow=true`
request. -/
theorem near_openNow_is_snapshot_filter_witness :
    (buildNearFilters nearOpenNowQuery).isOpen = some true ∧
    ∀ f r oh, matchesNearFilters f { r with openingHours := oh } = matchesNearFilters f r :=
  near_openNow_is_snapshot_filter nearOpenNowQuery rfl

/-- Counterexample to C3: on the attribute path a storage error is *not*
degraded to a 200 with an empty result — `getAllRestaurants` forwards it to
`next(error)` and the error middleware answers 500. -/
theorem attr_storage_error_is_500 :
    getAllRestaurants ({} : RawQuery) (Db.failing "query failed") sundayNoon =
      AttrResponse.errorOut "query failed" ∧
    attrStatus (getAllRestaurants ({} : RawQuery) (Db.failing "query failed") sundayNoon) = 500 := by
  refine ⟨by decide, by decide⟩

/-- C3 as amended: only the proximity path recovers storage errors locally —
its aggregation failures still produce a 200 whose envelope has empty `data`
and `total = 0`, and that path never answers 5xx at all; the attribute path
instead propagates any storage error to the error middleware, surfacing a
500. -/
theorem storage_error_split_semantics :
    (∀ rq msg now, attrStatus (getAllRestaurants rq (Db.failing msg) now) = 500) ∧
    (∀ rq db geo, nearStatus (getRestaurantsNearLocation rq db geo) = 200 ∨
        nearStatus (getRestaurantsNearLocation rq db geo) = 400) ∧
    (∀ rq geo msg, jsFalsy rq.longitude = false → jsFalsy rq.latitude = false →
        jsParseFloat rq.longitude ≠ none → jsParseFloat rq.latitude ≠ none →
        ∃ env, getRestaurantsNearLocation rq (Db.failing msg) geo = .ok env ∧
          env.success = true ∧ env.data = [] ∧ env.pagination.total = 0) := by
  refine ⟨?_, ?_, ?_⟩
  · intro rq msg now
    unfold getAllRestaurants dbFind
    split <;> rfl
  · intro rq db geo
    unfold getRestaurantsNearLocation
    split
    · right; rfl
    · split
      · cases db <;> exact Or.inl rfl
      · right; rfl
  · intro rq geo msg hlf htf hlp htp
    obtain ⟨lng, hlng⟩ := Option.ne_none_iff_exists'.mp hlp
    obtain ⟨lat, hlat⟩ := Option.ne_none_iff_exists'.mp htp
    unfold getRestaurantsNearLocation
    rw [hlf, htf, hlng, hlat]
    exact ⟨_, rfl, rfl, rfl, rfl⟩

/-- Witness for C3's amended statement: a failing store on the attribute
path yields 500; on the proximity path with valid coordinates it still
yields a 200 `{ data: [], total: 0 }`. -/
theorem storage_error_split_semantics_witness :
    attrStatus (getAllRestaurants openNowOnlyQuery (Db.failing "boom") sundayNoon) = 500 ∧
    ∃ env, getRestaurantsNearLocation nearPlainQuery (Db.failing "boom") geoZero = .ok env ∧
      env.success = true ∧ env.data = [] ∧ env.pagination.total = 0 := by
  refine ⟨storage_error_split_semantics.1 openNowOnlyQuery "boom" sundayNoon, ?_⟩
  exact storage_error_split_semantics.2.2 nearPlainQuery geoZero "boom"
    (by decide) (by decide) (by decide) (by decide)

/-- A request supplying both an exact rating and a lower rating bound. -/
def ratingConflictQuery : RawQuery := { rating := some "3", minRating := some "4" }

/-- Counterexample to C4: with `rating=3&minRating=4` the compiled predicate
on `rating` is the range `{ $gte: 4 }`, not equality with 3 — spreading the
scalar `3` into `{ ...filter.rating, $gte: 4 }` discards it, so a document
with the exact requested rating 3 does not match while one with rating 4.5
does. -/
theorem rating_bounds_override_exact :
    (buildFilter ratingConflictQuery).rating = some (MongoNum.range (some (Q.ofInt 4)) none) ∧
    matchesFilter (buildFilter ratingConflictQuery) { rating := Q.ofInt 3 } = false ∧
    matchesFilter (buildFilter ratingConflictQuery) { rating := ⟨45, pow10 1⟩ } = true := by
  refine ⟨by decide, by decide, by decide⟩

/-- C4 as amended: when an exact `rating` is supplied together with a rating
bound, the bounds override the exact value — the compiled `rating` predicate
is exactly the range built from whichever of `minRating`/`maxRating`
parsed, and the exact equality is discarded. -/
theorem rating_exact_discarded_by_bounds (rq : RawQuery)
    (hx : jsParseFloat rq.rating ≠ none)
    (hb : jsParseFloat rq.minRating ≠ none ∨ jsParseFloat rq.maxRating ≠ none) :
    (buildFilter rq).rating =
      some (MongoNum.range (jsParseFloat rq.minRating) (jsParseFloat rq.maxRating)) := by
  show compileRating rq.rating rq.minRating rq.maxRating = _
  obtain ⟨x, hxv⟩ := Option.ne_none_iff_exists'.mp hx
  unfold compileRating
  rw [hxv]
  cases hmin : jsParseFloat rq.minRating with
  | some m =>
      cases hmax : jsParseFloat rq.maxRating with
      | some M => simp [withGte, withLte]
      | none => simp [withGte]
  | none =>
      cases hmax : jsParseFloat rq.maxRating with
      | some M => simp [withGte, withLte]
      | none => simp_all

/-- Witness for C4's amended statement at the concrete conflicting request. -/
theorem rating_exact_discarded_by_bounds_witness :
    (buildFilter ratingConflictQuery).rating =
      some (MongoNum.range (jsParseFloat ratingConflictQuery.minRating)
        (jsParseFloat ratingConflictQuery.maxRating)) :=
  rating_exact_discarded_by_bounds ratingConflictQuery (by decide) (Or.inl (by decide))

/-- C6: on the proximity path, the non-open-now predicate and the maximum
radius are applied inside the `$geoNear` stage itself; `total` is the length
of that stage's output (the `$count` pipeline over the same stage), the page
is a slice of the same output with `distanceInKm` added, and every returned
document carries `distanceInKm` equal to its geodesic distance in meters
divided by 1000. -/
theorem near_pipeline_consistency (rq : NearRawQuery) (store : List Restaurant)
    (geo : Q × Q → Restaurant → Q) (lng lat : Q)
    (hlf : jsFalsy rq.longitude = false) (htf : jsFalsy rq.latitude = false)
    (hlng : jsParseFloat rq.longitude = some lng) (hlat : jsParseFloat rq.latitude = some lat) :
    ∃ env, getRestaurantsNearLocation rq (Db.healthy store) geo = .ok env ∧
      env.pagination.total =
        (geoNearStage geo (lng, lat) (nearMaxDistance rq) (buildNearFilters rq) store).length ∧
      env.count = env.pagination.total ∧
      env.data =
        (((geoNearStage geo (lng, lat) (nearMaxDistance rq) (buildNearFilters rq) store).map
            fun p => NearDoc.mk p.1 p.2 (p.2.divN 1000)).drop
          (jsToInt (nearSkip rq)).toNat).take (jsToInt (nearLimit rq)).toNat ∧
      (∀ d ∈ env.data, d.distanceInKm.val = d.distanceInMeters.val / 1000) ∧
      ∀ p ∈ geoNearStage geo (lng, lat) (nearMaxDistance rq) (buildNearFilters rq) store,
        matchesNearFilters (buildNearFilters rq) p.1 = true ∧
        jsLe (some (geo (lng, lat) p.1)) (nearMaxDistance rq) = true ∧
        p.2 = geo (lng, lat) p.1 := by
  have stage_mem : ∀ p ∈ geoNearStage geo (lng, lat) (nearMaxDistance rq)
      (buildNearFilters rq) store,
      matchesNearFilters (buildNearFilters rq) p.1 = true ∧
      jsLe (some (geo (lng, lat) p.1)) (nearMaxDistance rq) = true ∧
      p.2 = geo (lng, lat) p.1 := by
    intro p hp
    unfold geoNearStage at hp
    obtain ⟨r, hr, rfl⟩ := List.mem_map.mp hp
    obtain ⟨-, hcond⟩ := List.mem_filter.mp ((mem_sortByLt _ _ _).mp hr)
    simp only [Bool.and_eq_true] at hcond
    exact ⟨hcond.1, hcond.2, rfl⟩
  unfold getRestaurantsNearLocation
  rw [hlf, htf]
  simp only [Bool.or_self, Bool.false_eq_true, if_false, hlng, hlat]
  refine ⟨_, rfl, rfl, rfl, rfl, ?_, stage_mem⟩
  intro d hd
  obtain ⟨p, hp, rfl⟩ :=
    List.mem_map.mp (List.mem_of_mem_drop (List.mem_of_mem_take hd))
  show (p.2.divN 1000).val = p.2.val / 1000
  rw [Q.val_divN]
  norm_num

/-- Witness for C6 at a concrete request, store and distance function. -/
theorem near_pipeline_consistency_witness :
    ∃ env, getRestaurantsNearLocation nearPlainQuery
        (Db.healthy snapshotClosedStore) geoZero = .ok env ∧
      env.pagination.total =
        (geoNearStage geoZero (Q.ofInt 103, Q.ofInt 1) (nearMaxDistance nearPlainQuery)
          (buildNearFilters nearPlainQuery) snapshotClosedStore).length ∧
      env.count = env.pagination.total ∧
      env.data =
        (((geoNearStage geoZero (Q.ofInt 103, Q.ofInt 1) (nearMaxDistance nearPlainQuery)
            (buildNearFilters nearPlainQuery) snapshotClosedStore).map
            fun p => NearDoc.mk p.1 p.2 (p.2.divN 1000)).drop
          (jsToInt (nearSkip nearPlainQuery)).toNat).take
          (jsToInt (nearLimit nearPlainQuery)).toNat ∧
      (∀ d ∈ env.data, d.distanceInKm.val = d.distanceInMeters.val / 1000) ∧
      ∀ p ∈ geoNearStage geoZero (Q.ofInt 103, Q.ofInt 1) (nearMaxDistance nearPlainQuery)
          (buildNearFilters nearPlainQuery) snapshotClosedStore,
        matchesNearFilters (buildNearFilters nearPlainQuery) p.1 = true ∧
        jsLe (some (geoZero (Q.ofInt 103, Q.ofInt 1) p.1)) (nearMaxDistance nearPlainQuery) = true ∧
        p.2 = geoZero (Q.ofInt 103, Q.ofInt 1) p.1 :=
  near_pipeline_consistency nearPlainQuery snapshotClosedStore geoZero
    (Q.ofInt 103) (Q.ofInt 1) (by decide) (by decide) (by decide) (by decide)

/-- Wednesday noon. -/
def wedNoon : Instant := ⟨3, 12, 0⟩

/-- A store whose only record carries a Wednesday entry `":0-24:0"` that is
not of the `"HH:MM-HH:MM"` shape but that the lenient parse still accepts
(`Number("") = 0`, so it reads as the interval 0–1440 minutes). -/
def lenientStore : List Restaurant :=
  [{ name := "Lenient", openingHours := { wed := some ":0-24:0" } }]

/-- Counterexample to C7: a record whose day entry is *not* of the exact
single-interval `"HH:MM-HH:MM"` shape is nevertheless kept by the open-now
filter — the parse is lenient, not shape-validating. -/
theorem lenient_entry_not_excluded :
    exactHHMMShape ":0-24:0" = false ∧
    isOpenAt { wed := some ":0-24:0" } wedNoon = true ∧
    (getAllRestaurants openNowOnlyQuery (Db.healthy lenientStore) wedNoon).totalOf = 1 ∧
    (getAllRestaurants openNowOnlyQuery (Db.healthy lenientStore) wedNoon).dataOf
      = lenientStore := by
  refine ⟨by decide, by decide, by decide, by decide⟩

/-- C7 as amended: records whose day entry fails the code's (lenient)
parse — yielding NaN or a thrown `TypeError` — are excluded fail-closed:
every record the `openNow=true` request returns has a successfully parsed
entry for the evaluation day, and the request still completes with a 200
over the remaining records.  The multi-segment space-separated strings the
source platform emits (`"11:00-15:00 18:00-22:00"`) are always so excluded.
Entries that deviate from the exact `"HH:MM-HH:MM"` shape while still
parsing numerically are, however, evaluated rather than excluded. -/
theorem openNow_fail_closed_nonfatal (rq : RawQuery) (store : List Restaurant)
    (now : Instant) (hON : rq.openNow = some "true") :
    attrStatus (getAllRestaurants rq (Db.healthy store) now) = 200 ∧
    (∀ r ∈ (getAllRestaurants rq (Db.healthy store) now).dataOf,
        parsedInterval (weekdayEntry r.openingHours now.day) ≠ none) ∧
    ∀ cur, evalOpenEntry (some "11:00-15:00 18:00-22:00") cur = false := by
  have hmulti : parsedInterval (some "11:00-15:00 18:00-22:00") = none := by decide
  unfold getAllRestaurants dbFind
  rw [hON, if_pos rfl]
  refine ⟨rfl, ?_, ?_⟩
  · intro r hr
    have hmem : r ∈ ((applySort (sortOf rq)
        (store.filter (matchesFilter (buildFilter rq)))).take 10000).filter
          fun r => isOpenAt r.openingHours now := by
      exact List.mem_of_mem_take (List.mem_of_mem_drop hr)
    have hopen : isOpenAt r.openingHours now = true := (List.mem_filter.mp hmem).2
    rw [isOpenAt_weekday, evalOpenEntry_parsed] at hopen
    intro hnone
    rw [hnone] at hopen
    exact Bool.false_ne_true hopen
  · intro cur
    rw [evalOpenEntry_parsed, hmulti]

/-- A record carrying the platform's multi-segment Sunday hours. -/
def rMultiSegment : Restaurant :=
  { name := "Split", openingHours := { sun := some "11:00-15:00 18:00-22:00" } }

/-- Witness for C7's amended statement at a concrete request and store
containing a well-formed record and a multi-segment record. -/
theorem openNow_fail_closed_nonfatal_witness :
    attrStatus (getAllRestaurants openNowOnlyQuery
        (Db.healthy [rOpenSunday, rMultiSegment]) sundayNoon) = 200 ∧
    (∀ r ∈ (getAllRestaurants openNowOnlyQuery
        (Db.healthy [rOpenSunday, rMultiSegment]) sundayNoon).dataOf,
        parsedInterval (weekdayEntry r.openingHours sundayNoon.day) ≠ none) ∧
    ∀ cur, evalOpenEntry (some "11:00-15:00 18:00-22:00") cur = false :=
  openNow_fail_closed_nonfatal openNowOnlyQuery [rOpenSunday, rMultiSegment] sundayNoon rfl

/-- The numeric filter parameters of the attribute path. -/
inductive NumParam where
  | priceLevel | rating | minRating | maxRating
  | minPrice | maxPrice | minDistance | maxDistance | minReviews
  deriving DecidableEq

/-- Overwrite one numeric filter parameter of a raw request. -/
def setNumParam (rq : RawQuery) : NumParam → Option String → RawQuery
  | .priceLevel, v => { rq with priceLevel := v }
  | .rating, v => { rq with rating := v }
  | .minRating, v => { rq with minRating := v }
  | .maxRating, v => { rq with maxRating := v }
  | .minPrice, v => { rq with minPrice := v }
  | .maxPrice, v => { rq with maxPrice := v }
  | .minDistance, v => { rq with minDistance := v }
  | .maxDistance, v => { rq with maxDistance := v }
  | .minReviews, v => { rq with minReviews := v }

/-- The parse each numeric parameter receives in the controller
(`parseInt(·, 10)` or `parseFloat`). -/
def numParamParse : NumParam → Option String → Option Q
  | .priceLevel, s => jsParseInt s
  | .rating, s => jsParseFloat s
  | .minRating, s => jsParseFloat s
  | .maxRating, s => jsParseFloat s
  | .minPrice, s => jsParseInt s
  | .maxPrice, s => jsParseInt s
  | .minDistance, s => jsParseFloat s
  | .maxDistance, s => jsParseFloat s
  | .minReviews, s => jsParseInt s

/-- `getAllRestaurants` reads the raw request only through the page, limit,
sort, compiled filter and `openNow` flag. -/
theorem getAllRestaurants_congr (rq rq' : RawQuery) (db : Db) (now : Instant)
    (h1 : rqPage rq = rqPage rq') (h2 : rqLimit rq = rqLimit rq')
    (h3 : sortOf rq = sortOf rq') (h4 : buildFilter rq = buildFilter rq')
    (h5 : rq.openNow = rq'.openNow) :
    getAllRestaurants rq db now = getAllRestaurants rq' db now := by
  have h6 : rqSkip rq = rqSkip rq' := by unfold rqSkip; rw [h1, h2]
  unfold getAllRestaurants
  rw [h1, h2, h3, h4, h5, h6]

/-- C8: a numeric filter parameter whose value parses to NaN is dropped as
if absent — the whole response (over any store and instant) is identical to
the same request without that parameter, so nothing is aborted, no other
filter is affected, and the result set is never reduced relative to
omitting the filter. -/
theorem malformed_numeric_filter_dropped (rq : RawQuery) (db : Db) (now : Instant)
    (p : NumParam) (s : String) (h : numParamParse p (some s) = none) :
    getAllRestaurants (setNumParam rq p (some s)) db now =
      getAllRestaurants (setNumParam rq p none) db now := by
  apply getAllRestaurants_congr
  · cases p <;> rfl
  · cases p <;> rfl
  · cases p <;> rfl
  · cases p <;>
      simp_all [buildFilter, setNumParam, numParamParse, compileRating,
        compilePriceLevel, compileDistance, jsParseFloat, jsParseInt]
  · cases p <;> rfl

/-- Witness for C8: `minRating=invalid` behaves exactly like omitting
`minRating`. -/
theorem malformed_numeric_filter_dropped_witness :
    getAllRestaurants (setNumParam openNowOnlyQuery .minRating (some "invalid"))
        (Db.healthy [rOpenSunday, rClosedSunday]) sundayNoon =
      getAllRestaurants (setNumParam openNowOnlyQuery .minRating none)
        (Db.healthy [rOpenSunday, rClosedSunday]) sundayNoon :=
  malformed_numeric_filter_dropped openNowOnlyQuery
    (Db.healthy [rOpenSunday, rClosedSunday]) sundayNoon .minRating "invalid" (by decide)

/-- C9: a proximity request with a missing (or blank) coordinate, or one
whose coordinate fails to parse as a number, receives a 400 with one of the
two descriptive messages, and the handler consults neither the store nor the
distance function — in particular it never falls back to an attribute-path
or empty-success answer. -/
theorem near_coord_validation (rq : NearRawQuery) (db : Db)
    (geo : Q × Q → Restaurant → Q)
    (h : jsFalsy rq.longitude = true ∨ jsFalsy rq.latitude = true ∨
      jsParseFloat rq.longitude = none ∨ jsParseFloat rq.latitude = none) :
    nearStatus (getRestaurantsNearLocation rq db geo) = 400 ∧
    (∃ m, getRestaurantsNearLocation rq db geo = .badRequest m ∧
      (m = "Please provide longitude and latitude" ∨ m = "Invalid longitude or latitude")) ∧
    ∀ db' geo', getRestaurantsNearLocation rq db' geo' =
      getRestaurantsNearLocation rq db geo := by
  have key : ∀ db1 g1, getRestaurantsNearLocation rq db1 g1 =
      (if (jsFalsy rq.longitude || jsFalsy rq.latitude) = true
        then NearResponse.badRequest "Please provide longitude and latitude"
        else NearResponse.badRequest "Invalid longitude or latitude") := by
    intro db1 g1
    unfold getRestaurantsNearLocation
    by_cases hf : (jsFalsy rq.longitude || jsFalsy rq.latitude) = true
    · rw [if_pos hf, if_pos hf]
    · rw [if_neg hf, if_neg hf]
      have hfl : jsFalsy rq.longitude = false := by
        cases hb : jsFalsy rq.longitude <;> simp_all
      have hft : jsFalsy rq.latitude = false := by
        cases hb : jsFalsy rq.latitude <;> simp_all
      rcases h with h | h | h | h
      · rw [h] at hfl; cases hfl
      · rw [h] at hft; cases hft
      · rw [h]
      · cases hlng : jsParseFloat rq.longitude <;> rw [h]
  refine ⟨?_, ?_, ?_⟩
  · rw [key db geo]
    split <;> rfl
  · by_cases hf : (jsFalsy rq.longitude || jsFalsy rq.latitude) = true
    · exact ⟨_, by rw [key db geo, if_pos hf], Or.inl rfl⟩
    · exact ⟨_, by rw [key db geo, if_neg hf], Or.inr rfl⟩
  · intro db' geo'
    rw [key db' geo', key db geo]

/-- Witness for C9: an unparseable longitude with a failing store still gets
the 400 validation answer. -/
theorem near_coord_validation_witness :
    nearStatus (getRestaurantsNearLocation
        { longitude := some "abc", latitude := some "1" } (Db.failing "down") geoZero) = 400 ∧
    (∃ m, getRestaurantsNearLocation
        { longitude := some "abc", latitude := some "1" } (Db.failing "down") geoZero =
          .badRequest m ∧
      (m = "Please provide longitude and latitude" ∨ m = "Invalid longitude or latitude")) ∧
    ∀ db' geo', getRestaurantsNearLocation
        { longitude := some "abc", latitude := some "1" } db' geo' =
      getRestaurantsNearLocation
        { longitude := some "abc", latitude := some "1" } (Db.failing "down") geoZero :=
  near_coord_validation { longitude := some "abc", latitude := some "1" }
    (Db.failing "down") geoZero (Or.inr (Or.inr (Or.inl (by decide))))

/-- The envelope `getAllRestaurants` produces for an empty store and an
all-default request. -/
def attrEmptyEnv : Envelope :=
  { success := true, count := 0,
    pagination := { total := 0, page := some (Q.ofInt 1), pages := some (Q.ofInt 0),
                    limit := some (Q.ofInt 20) }
    data := [] }

/-- The envelope the proximity path produces for `nearPlainQuery` over the
one-document store with the degenerate distance function. -/
def nearSnapEnv : NearEnvelope :=
  { success := true, count := 1,
    pagination := { total := 1, page := some (Q.ofInt 1), pages := some (Q.ofInt 1),
                    limit := some (Q.ofInt 20) }
    data := [⟨{ name := "Snap", isOpen := false }, 0, Q.divN 0 1000⟩]
    currentPage := some (Q.ofInt 1), totalPages := some (Q.ofInt 1) }

/-- C10: the top-level `count` differs in meaning between the two paths —
every attribute-path 200 envelope has `count` equal to the returned page
length, every proximity-path 200 envelope has `count` equal to the total
match count, and on the proximity path `count` can strictly exceed the page
length. -/
theorem count_field_split_meaning :
    (∀ rq db now env, getAllRestaurants rq db now = .ok env →
        env.count = env.data.length) ∧
    (∀ rq db geo env, getRestaurantsNearLocation rq db geo = .ok env →
        env.count = env.pagination.total) ∧
    ∃ rq db geo, (getRestaurantsNearLocation rq db geo).dataLen <
      (getRestaurantsNearLocation rq db geo).countOf := by
  refine ⟨?_, ?_, ?_⟩
  · intro rq db now env h
    unfold getAllRestaurants at h
    dsimp only at h
    split at h
    · split at h
      · simp at h
      · cases h; rfl
    · split at h
      · simp at h
      · split at h
        · simp at h
        · cases h; rfl
  · intro rq db geo env h
    unfold getRestaurantsNearLocation at h
    dsimp only at h
    split at h
    · simp at h
    · split at h
      · split at h
        · cases h; rfl
        · cases h; rfl
      · simp at h
  · exact ⟨{ longitude := some "103", latitude := some "1", limit := some "1" },
      Db.healthy [{ name := "A" }, { name := "B" }], geoZero, by decide⟩

/-- Witness for C10 at concrete requests on both paths. -/
theorem count_field_split_meaning_witness :
    (getAllRestaurants ({} : RawQuery) (Db.healthy []) sundayNoon = .ok attrEmptyEnv ∧
      attrEmptyEnv.count = attrEmptyEnv.data.length) ∧
    (getRestaurantsNearLocation nearPlainQuery (Db.healthy snapshotClosedStore) geoZero =
        .ok nearSnapEnv ∧
      nearSnapEnv.count = nearSnapEnv.pagination.total) := by
  have h1 : getAllRestaurants ({} : RawQuery) (Db.healthy []) sundayNoon =
      .ok attrEmptyEnv := by decide
  have h2 : getRestaurantsNearLocation nearPlainQuery
      (Db.healthy snapshotClosedStore) geoZero = .ok nearSnapEnv := by decide
  exact ⟨⟨h1, count_field_split_meaning.1 _ _ _ _ h1⟩,
    ⟨h2, count_field_split_meaning.2.1 _ _ _ _ h2⟩⟩

end RestaurantFinder
